import Mathlib

/-!
Verification development for the PotholeBackend video-ingestion pipeline.

Shallow embedding of the pipeline core implemented in
`app/utils/video_processor.py` and `app/utils/frame_queue.py`:
the per-stream statistics counters, the dispatch path
(`_enqueue_detection`, `_post_frame_to_detection`), the task queue
(`add_task`, `_worker`), the capture-engine start logic, the stream
registry, the MJPEG buffer scanner, the sampling-clock policy and the
source-locator resolver.  External effects (the OpenCV probe, the HTTP
response, the filesystem, the random task-id suffix, wall-clock readings)
are passed in as explicit parameters; everything else is translated
directly from the Python source.
-/

namespace PotholeBackend

/-- `StreamStats` from `video_processor.py` (lines 51-59): the mutable
per-stream counters.  Timestamps are modelled as rationals. -/
structure StreamStats where
  frames_processed : Nat := 0
  frames_sent : Nat := 0
  frames_failed : Nat := 0
  frames_dropped : Nat := 0
  last_frame_time : Option ℚ := none
  last_sample_time : Option ℚ := none
  last_error : Option String := none
  deriving Repr, DecidableEq

/-- The freshly initialised `StreamStats()` dataclass: all counters zero,
all optional fields `None`. -/
def StreamStats.init : StreamStats := {}

/-- Outcome of `_enqueue_detection`: either no task was enqueued, or a task
with the given frame number was submitted to the queue. -/
inductive EnqueueOutcome where
  | noTask
  | task (frameNumber : Nat) (taskId : String)
  deriving Repr, DecidableEq

/-- The task identifier built at `video_processor.py` line 340:
`f"{self.stream_id}:{frame_number}:{uuid.uuid4().hex[:8]}"`.
The random suffix is a parameter. -/
def mkTaskId (streamId : String) (frameNumber : Nat) (suffix : String) : String :=
  streamId ++ ":" ++ toString frameNumber ++ ":" ++ suffix

/-- `VideoStreamProcessor._enqueue_detection` (lines 313-341), as a pure
state transformer on the stats.  Inputs that the Python code obtains from
the environment are parameters: `qsize` (`frame_queue.task_queue.qsize()`),
`encodeOk` (whether `cv2.imencode` succeeded), `suffix` (the random hex
suffix) and `sampleTime`.  The code first applies backpressure (drop when
`qsize >= max_queue_size`), then encodes (count an encode failure under
`frames_failed`), and only then increments `frames_processed`, takes the
incremented value as the frame number, and submits the dispatch task. -/
def enqueueDetection (maxQueueSize : Nat) (streamId : String)
    (s : StreamStats) (qsize : Nat) (encodeOk : Bool)
    (suffix : String) (sampleTime : ℚ) : StreamStats × EnqueueOutcome :=
  if qsize ≥ maxQueueSize then
    ({ s with frames_dropped := s.frames_dropped + 1,
              last_sample_time := some sampleTime }, .noTask)
  else if !encodeOk then
    ({ s with frames_failed := s.frames_failed + 1,
              last_sample_time := some sampleTime }, .noTask)
  else
    let frameNumber := s.frames_processed + 1
    ({ s with frames_processed := frameNumber,
              last_sample_time := some sampleTime },
     .task frameNumber (mkTaskId streamId frameNumber suffix))

/-- The JSON-or-raw-text payload returned by `_post_frame_to_detection`:
`resp.json()` when the body parses, else `{"raw": resp.text}`.  JSON values
are opaque (tagged by a natural number). -/
inductive Payload where
  | json (v : Nat)
  | raw (text : String)
  deriving Repr, DecidableEq

/-- The environment of one execution of `_post_frame_to_detection`: either
`requests.post` itself raised (connection error, timeout), or it returned a
response with a status code, an optional parsed JSON body (`none` when
`resp.json()` raises) and the raw body text. -/
inductive PostResult where
  | postError (msg : String)
  | response (status : Nat) (jsonBody : Option Nat) (text : String)
  deriving Repr, DecidableEq

/-- `requests.Response.raise_for_status` raises `HTTPError` exactly for
status codes in `[400, 600)` (4xx client errors and 5xx server errors);
informational, success and redirect statuses do not raise.  This models the
`resp.raise_for_status()` call at `video_processor.py` line 361; the
error message is abstracted as a function of the status code. -/
def httpErrorMsg (status : Nat) : String :=
  "HTTP error " ++ toString status

/-- Whether `raise_for_status` raises for this status code. -/
def raiseForStatusRaises (status : Nat) : Bool :=
  400 ≤ status && status < 600

/-- `VideoStreamProcessor._post_frame_to_detection` (lines 343-377) as a
pure function of the stats and the HTTP environment.  It returns the new
stats and either `.ok payload` (the Task's result) or `.error msg` (the
exception that propagates to the queue worker).  Every exception path
increments `frames_failed` and records the message as `last_error` before
re-raising. -/
def postFrameToDetection (s : StreamStats) (r : PostResult) :
    StreamStats × Except String Payload :=
  match r with
  | .postError msg =>
      ({ s with frames_failed := s.frames_failed + 1,
                last_error := some msg }, .error msg)
  | .response status jsonBody text =>
      if raiseForStatusRaises status then
        let msg := httpErrorMsg status
        ({ s with frames_failed := s.frames_failed + 1,
                  last_error := some msg }, .error msg)
      else
        let payload := match jsonBody with
          | some v => Payload.json v
          | none => Payload.raw text
        ({ s with frames_sent := s.frames_sent + 1 }, .ok payload)

/-! ### Dispatch-path traces (for the StreamStats accounting invariant)

A trace interleaves calls to `_enqueue_detection` (one per sampled frame)
with resolutions of previously submitted dispatch tasks
(`_post_frame_to_detection` running in a worker).  Each event carries the
environment data the Python code reads at that point. -/

/-- One stats-affecting event on a stream: a sampled frame entering
`_enqueue_detection`, or a dispatch task finishing
`_post_frame_to_detection`. -/
inductive DispatchEvent where
  | sampled (qsize : Nat) (encodeOk : Bool) (suffix : String) (t : ℚ)
  | resolved (r : PostResult)
  deriving Repr, DecidableEq

/-- Apply one event to the stats, using the embedded source functions. -/
def stepStats (maxQueueSize : Nat) (streamId : String)
    (s : StreamStats) (e : DispatchEvent) : StreamStats :=
  match e with
  | .sampled qsize encodeOk suffix t =>
      (enqueueDetection maxQueueSize streamId s qsize encodeOk suffix t).1
  | .resolved r => (postFrameToDetection s r).1

/-- Stats after a whole trace, starting from freshly initialised stats. -/
def runTrace (maxQueueSize : Nat) (streamId : String)
    (events : List DispatchEvent) : StreamStats :=
  events.foldl (stepStats maxQueueSize streamId) StreamStats.init

/-- A `sampled` event that actually submits a task (not dropped by
backpressure, encode succeeded). -/
def DispatchEvent.isEnqueue (maxQueueSize : Nat) : DispatchEvent → Bool
  | .sampled qsize encodeOk _ _ => decide (qsize < maxQueueSize) && encodeOk
  | .resolved _ => false

/-- A `sampled` event dropped by backpressure. -/
def DispatchEvent.isDrop (maxQueueSize : Nat) : DispatchEvent → Bool
  | .sampled qsize _ _ _ => decide (qsize ≥ maxQueueSize)
  | .resolved _ => false

/-- A `sampled` event that passed backpressure but failed to encode. -/
def DispatchEvent.isEncodeFail (maxQueueSize : Nat) : DispatchEvent → Bool
  | .sampled qsize encodeOk _ _ => decide (qsize < maxQueueSize) && !encodeOk
  | .resolved _ => false

/-- A task resolution whose work raised (post failed or `raise_for_status`
raised). -/
def DispatchEvent.isFailResolve : DispatchEvent → Bool
  | .resolved (.postError _) => true
  | .resolved (.response status _ _) => raiseForStatusRaises status
  | .sampled _ _ _ _ => false

/-- A task resolution whose work returned successfully. -/
def DispatchEvent.isOkResolve : DispatchEvent → Bool
  | .resolved (.postError _) => false
  | .resolved (.response status _ _) => !raiseForStatusRaises status
  | .sampled _ _ _ _ => false

/-- Number of dispatch tasks submitted along a trace. -/
def enqueueCount (maxQueueSize : Nat) (events : List DispatchEvent) : Nat :=
  (events.filter (DispatchEvent.isEnqueue maxQueueSize)).length

/-- Number of dispatch tasks resolved (completed or failed) along a trace. -/
def resolveCount (events : List DispatchEvent) : Nat :=
  (events.filter (fun e => e.isFailResolve || e.isOkResolve)).length

/-- "No frames in flight": every submitted dispatch task has resolved. -/
def noFramesInFlight (maxQueueSize : Nat) (events : List DispatchEvent) : Prop :=
  enqueueCount maxQueueSize events = resolveCount events

instance (maxQueueSize : Nat) (events : List DispatchEvent) :
    Decidable (noFramesInFlight maxQueueSize events) := by
  unfold noFramesInFlight; infer_instance

/-! ### Task queue (`frame_queue.py`) -/

/-- `TaskStatus` enum (`frame_queue.py` lines 11-15). -/
inductive TaskStatus where
  | pending
  | running
  | completed
  | failed
  deriving Repr, DecidableEq

/-- The `Task` dataclass (`frame_queue.py` lines 17-32).  The callable and
its arguments are opaque, tagged by a natural number `work`; the result
value is likewise opaque.  `created_at` is filled in by `__post_init__`. -/
structure QTask where
  id : String
  work : Nat
  status : TaskStatus := .pending
  result : Option Nat := none
  error : Option String := none
  created_at : ℚ
  started_at : Option ℚ := none
  completed_at : Option ℚ := none
  deriving Repr, DecidableEq

/-- `Task(id=task_id, function=function, args=args, kwargs=kwargs)` as built
by `add_task`: a fresh Pending task. -/
def QTask.mk0 (id : String) (work : Nat) (now : ℚ) : QTask :=
  { id := id, work := work, created_at := now }

/-- State of a `FrameQueue` relevant to submission: the FIFO work channel
and the result store (`result_store` is a dict keyed by task id; modelled
as a function to `Option QTask`). -/
structure FQState where
  taskQueue : List QTask
  resultStore : String → Option QTask

/-- The two externally visible effects `add_task` performs, in order. -/
inductive QueueOp where
  | enqueue (taskId : String)
  | record (taskId : String)
  deriving Repr, DecidableEq

/-- `FrameQueue.add_task` (`frame_queue.py` lines 75-81): build the Task,
`self.task_queue.put(task)`, then `self.result_store[task_id] = task`,
then return `task_id`.  The returned list is the sequence of effects in
program order. -/
def addTask (st : FQState) (taskId : String) (work : Nat) (now : ℚ) :
    FQState × String × List QueueOp :=
  let task := QTask.mk0 taskId work now
  ({ taskQueue := st.taskQueue ++ [task],
     resultStore := fun k => if k = taskId then some task else st.resultStore k },
   taskId,
   [.enqueue taskId, .record taskId])

/-- The claim's ordering: the task is recorded in the result store strictly
before it is enqueued on the work channel. -/
def recordedBeforeEnqueued (ops : List QueueOp) (taskId : String) : Prop :=
  ∃ i j, ops.get? i = some (.record taskId) ∧
    ops.get? j = some (.enqueue taskId) ∧ i < j

/-- The outcome of invoking a task's work: a return value, or a raised
exception with its message. -/
inductive WorkOutcome where
  | ok (v : Nat)
  | exc (msg : String)
  deriving Repr, DecidableEq

/-- First half of the worker body (`frame_queue.py` lines 125-126): mark
the task Running and stamp `started_at`, before invoking the work. -/
def markRunning (task : QTask) (now : ℚ) : QTask :=
  { task with status := .running, started_at := some now }

/-- Second half of the worker body (lines 128-140): invoke the work; on
return set `result` then status Completed; on exception set `error` to the
message then status Failed; in both cases the `finally` block stamps
`completed_at`. -/
def finishTask (task : QTask) (outcome : WorkOutcome) (now : ℚ) : QTask :=
  match outcome with
  | .ok v =>
      { task with result := some v, status := .completed,
                  completed_at := some now }
  | .exc msg =>
      { task with error := some msg, status := .failed,
                  completed_at := some now }

/-- One worker iteration on a dequeued task (`FrameQueue._worker`, lines
125-141): mark Running at time `t1`, run the work, finish at time `t2`. -/
def workerProcess (task : QTask) (outcome : WorkOutcome) (t1 t2 : ℚ) : QTask :=
  finishTask (markRunning task t1) outcome t2

/-- Rank of a status along the lifecycle, to state monotonicity. -/
def TaskStatus.rank : TaskStatus → Nat
  | .pending => 0
  | .running => 1
  | .completed => 2
  | .failed => 2

/-! ### Capture engine start and the stream registry -/

/-- The part of a `VideoStreamProcessor` that `start` and the registry
touch: the running flag, the connection flag, the last recorded error and
the number of capture threads spawned so far. -/
structure EngineState where
  is_running : Bool := false
  connection_active : Bool := false
  last_error : Option String := none
  threads_spawned : Nat := 0
  deriving Repr, DecidableEq

/-- A freshly constructed `VideoStreamProcessor`: not running, no thread,
no error (`__init__`, lines 83-88). -/
def EngineState.init : EngineState := {}

/-- `VideoStreamProcessor.start` (lines 90-115).  `probeOk` is whether the
probe `cv2.VideoCapture(source).isOpened()` succeeded.  Returns the updated
engine state and the boolean result: reject when already running; on probe
failure record the error and return `false` without spawning; on success
set the running flag, spawn one capture thread and return `true`. -/
def engineStart (e : EngineState) (probeOk : Bool) (source : String) :
    EngineState × Bool :=
  if e.is_running then (e, false)
  else if !probeOk then
    ({ e with connection_active := false,
              last_error := some ("Failed to open video source: " ++ source) },
     false)
  else
    ({ e with is_running := true, threads_spawned := e.threads_spawned + 1 },
     true)

/-- The registry `_active_streams`: a map from stream id to engine,
modelled as an association list (later bindings shadow earlier ones, like
repeated dict assignment; `start_video_stream` only inserts absent keys). -/
abbrev Registry := List (String × EngineState)

/-- Python `x or default` on the optional error string: falsy (`None` or
empty) falls back to the default (line 412). -/
def orDefault (o : Option String) (dflt : String) : String :=
  match o with
  | some s => if s = "" then dflt else s
  | none => dflt

/-- `start_video_stream` (lines 380-413).  Under the global lock: reject
when `stream_id` is already registered; otherwise construct a fresh engine,
call `start` (with probe outcome `probeOk`), register it on success, and on
failure return the engine's last recorded error (or a fallback) without
registering.  Returns the new registry and the `(success, error)` pair. -/
def startVideoStream (reg : Registry) (streamId : String) (source : String)
    (probeOk : Bool) : Registry × Bool × Option String :=
  match List.lookup streamId reg with
  | some _ => (reg, false, some ("Stream " ++ streamId ++ " is already running"))
  | none =>
      let (proc, ok) := engineStart EngineState.init probeOk source
      if ok then ((streamId, proc) :: reg, true, none)
      else (reg, false, some (orDefault proc.last_error "Failed to start stream"))

/-- Number of registry entries bound to a given stream id. -/
def Registry.countId (reg : Registry) (streamId : String) : Nat :=
  (reg.filter (fun p => p.1 = streamId)).length

/-! ### MJPEG buffer scanning (`_mjpeg_capture_loop`, lines 262-303) -/

/-- `bytes.find` for a two-byte pattern: index of the first occurrence of
`b0, b1` as adjacent bytes, `none` when absent. -/
def findMarker (b0 b1 : Nat) : List Nat → Option Nat
  | x :: y :: rest =>
      if x = b0 ∧ y = b1 then some 0
      else (findMarker b0 b1 (y :: rest)).map (· + 1)
  | _ => none

/-- The 10 MB hard cap on the rolling buffer (line 266). -/
def maxBufferSize : Nat := 10 * 1024 * 1024

/-- One iteration of the MJPEG chunk loop (lines 273-288), without the
frame-decoding and sampling that follow extraction: append the chunk; if
the buffer now exceeds 10 MB, clear it and continue; otherwise look for the
first JPEG start marker `ff d8` (index `a`) and first end marker `ff d9`
(index `b`); when both exist with `b > a`, emit `byte_stream[a:b+2]` as the
frame and keep `byte_stream[b+2:]`.  Returns (new buffer, extracted frame
if any). -/
def mjpegStep (buf chunk : List Nat) : List Nat × Option (List Nat) :=
  let s := buf ++ chunk
  if s.length > maxBufferSize then ([], none)
  else
    match findMarker 0xff 0xd8 s, findMarker 0xff 0xd9 s with
    | some a, some b =>
        if b > a then (s.drop (b + 2), some ((s.take (b + 2)).drop a))
        else (s, none)
    | _, _ => (s, none)

/-! ### Sampling-clock selection (`_opencv_capture_loop`, lines 212-228) -/

/-- The per-iteration sampling state of the generic capture loop:
`last_sample_wall` (wall-clock of the last wall-sampled frame, initially
`0.0`) and `last_sample_msec` (stream position of the last video-sampled
frame, initially `None`). -/
structure SampleState where
  last_sample_wall : ℚ := 0
  last_sample_msec : Option ℚ := none
  deriving Repr, DecidableEq

/-- The sampling decision of one loop iteration (lines 212-228).
`isLocalFile` is the source-kind flag computed at loop entry; `posMsec` is
`cap.get(cv2.CAP_PROP_POS_MSEC)` (the Python guard `pos_msec and
pos_msec > 0` is equivalent to `posMsec > 0`); `interval` is
`self.frame_interval` in seconds; `now` is `time.time()`.  Returns whether
the frame is sampled together with the updated state. -/
def shouldSample (isLocalFile : Bool) (posMsec : ℚ) (interval : ℚ)
    (now : ℚ) (st : SampleState) : Bool × SampleState :=
  if isLocalFile then
    if posMsec > 0 then
      match st.last_sample_msec with
      | none => (true, { st with last_sample_msec := some posMsec })
      | some m =>
          if posMsec - m ≥ interval * 1000 then
            (true, { st with last_sample_msec := some posMsec })
          else (false, st)
    else
      if now - st.last_sample_wall ≥ interval then
        (true, { st with last_sample_wall := now })
      else (false, st)
  else
    if now - st.last_sample_wall ≥ interval then
      (true, { st with last_sample_wall := now })
    else (false, st)

/-! ### Source-locator resolution (`_resolve_video_source`, lines 23-48) -/

/-- The whitespace characters removed by Python `str.strip()` (ASCII
range). -/
def isPyWhitespace (c : Char) : Bool :=
  c = ' ' || c = '\t' || c = '\n' || c = '\x0d' ||
  c = Char.ofNat 0x0b || c = Char.ofNat 0x0c

/-- Python `str.strip()`: drop leading and trailing whitespace. -/
def pyStrip (s : String) : String :=
  ⟨((s.data.dropWhile isPyWhitespace).reverse.dropWhile isPyWhitespace).reverse⟩

/-- A character permitted inside a URL scheme (`urllib.parse`): ASCII
letters, digits, `+`, `-`, `.`. -/
def isSchemeChar (c : Char) : Bool :=
  c.isAlpha || c.isDigit || c = '+' || c = '-' || c = '.'

/-- The scheme `urllib.parse.urlparse` extracts: the (lowercased) prefix
before the first `:` when that prefix is non-empty, starts with an ASCII
letter and consists of scheme characters; otherwise the empty string. -/
def urlScheme (s : String) : String :=
  let pre := s.data.takeWhile (· ≠ ':')
  if pre.length = s.data.length then ""   -- no colon at all
  else
    match pre with
    | [] => ""
    | c :: _ =>
        if c.isAlpha ∧ pre.all isSchemeChar then ⟨pre.map Char.toLower⟩
        else ""

/-- `_is_probably_url` (lines 23-28): the parsed scheme is one of
`http`, `https`, `rtsp`, `rtmp`. -/
def isProbablyUrl (s : String) : Bool :=
  urlScheme s = "http" || urlScheme s = "https" ||
  urlScheme s = "rtsp" || urlScheme s = "rtmp"

/-- POSIX `Path.is_absolute`: the path starts with `/`. -/
def isAbsolutePath (s : String) : Bool :=
  match s.data with
  | [] => false
  | c :: _ => c = '/'

/-- `pathlib`'s `/` on string paths: joining an absolute (or empty) right
operand ignores the left one (`Path(root) / abs = abs`,
`Path(root) / "" = root`). -/
def pathJoin (root rel : String) : String :=
  if rel = "" then root
  else if isAbsolutePath rel then rel
  else root ++ "/" ++ rel

/-- `_resolve_video_source` (lines 31-48).  The filesystem is the
predicate `fs` (`Path.exists`), `root` is the resolved project root
directory.  Strip the input; return URLs unchanged; return an existing
absolute path as-is; return an existing path under the project root as
that absolute path; otherwise fall back to the stripped input. -/
def resolveVideoSource (fs : String → Bool) (root : String)
    (videoSource : String) : String :=
  let v := pyStrip videoSource
  if isProbablyUrl v then v
  else if isAbsolutePath v && fs v then v
  else if fs (pathJoin root v) then pathJoin root v
  else v

/-! ### Remaining auxiliary definitions for the claims -/

/-- Number of backpressure drops along a trace. -/
def dropCount (maxQueueSize : Nat) (events : List DispatchEvent) : Nat :=
  (events.filter (DispatchEvent.isDrop maxQueueSize)).length

/-- Number of encode failures along a trace. -/
def encodeFailCount (maxQueueSize : Nat) (events : List DispatchEvent) : Nat :=
  (events.filter (DispatchEvent.isEncodeFail maxQueueSize)).length

/-- Number of successful task resolutions along a trace. -/
def okResolveCount (events : List DispatchEvent) : Nat :=
  (events.filter DispatchEvent.isOkResolve).length

/-- Number of failed task resolutions along a trace. -/
def failResolveCount (events : List DispatchEvent) : Nat :=
  (events.filter DispatchEvent.isFailResolve).length

/-- The dispatch path in the order the claim describes it: encode first
(counting an encode failure under `frames_failed` before any queue check),
then backpressure.  Written from the claim's words, to be compared with
`enqueueDetection`, which follows the source. -/
def enqueueDetectionClaimOrder (maxQueueSize : Nat) (streamId : String)
    (s : StreamStats) (qsize : Nat) (encodeOk : Bool)
    (suffix : String) (sampleTime : ℚ) : StreamStats × EnqueueOutcome :=
  if !encodeOk then
    ({ s with frames_failed := s.frames_failed + 1,
              last_sample_time := some sampleTime }, .noTask)
  else if qsize ≥ maxQueueSize then
    ({ s with frames_dropped := s.frames_dropped + 1,
              last_sample_time := some sampleTime }, .noTask)
  else
    let frameNumber := s.frames_processed + 1
    ({ s with frames_processed := frameNumber,
              last_sample_time := some sampleTime },
     .task frameNumber (mkTaskId streamId frameNumber suffix))

/-- A 2xx (success-class) HTTP status code, as the claim uses the term. -/
def is2xx (status : Nat) : Bool :=
  200 ≤ status && status < 300

/-! ## Theorems -/

/-- C2 (counterexample): the claim puts encoding before the backpressure
check, but the source checks backpressure first.  With the queue full
(`qsize = 50 ≥ 50`) and a frame that would fail to encode, the code counts
a drop while the claim's order counts an encode failure: the two dispatch
functions disagree at this concrete input. -/
theorem enqueueDetection_order_counterexample :
    enqueueDetection 50 "s" StreamStats.init 50 false "ab" 0 ≠
      enqueueDetectionClaimOrder 50 "s" StreamStats.init 50 false "ab" 0 ∧
    (enqueueDetection 50 "s" StreamStats.init 50 false "ab" 0).1.frames_dropped = 1 ∧
    (enqueueDetection 50 "s" StreamStats.init 50 false "ab" 0).1.frames_failed = 0 ∧
    (enqueueDetectionClaimOrder 50 "s" StreamStats.init 50 false "ab" 0).1.frames_failed = 1 := by
  refine ⟨?_, rfl, rfl, rfl⟩
  intro h
  have := congrArg (fun p => p.1.frames_dropped) h
  simp [enqueueDetection, enqueueDetectionClaimOrder, StreamStats.init] at this

/-- C2 (amended): dispatch-path order and effects as the source has them —
the backpressure check comes first: if the queue's pending length is ≥ the
configured max, `frames_dropped` is incremented, the sample time recorded
and no task enqueued (the frame is discarded before any encode attempt);
otherwise the frame is encoded, and an encode failure increments
`frames_failed` with the sample time recorded and no task; otherwise
`frames_processed` is incremented, its new value is the frame's sequence
number, and a task with identifier `stream_id:sequence:random_suffix` is
submitted. -/
theorem enqueueDetection_contract (maxq : Nat) (sid : String)
    (s : StreamStats) (q : Nat) (ok : Bool) (suf : String) (t : ℚ) :
    (maxq ≤ q →
      enqueueDetection maxq sid s q ok suf t =
        ({ s with frames_dropped := s.frames_dropped + 1,
                  last_sample_time := some t }, .noTask)) ∧
    (q < maxq → ok = false →
      enqueueDetection maxq sid s q ok suf t =
        ({ s with frames_failed := s.frames_failed + 1,
                  last_sample_time := some t }, .noTask)) ∧
    (q < maxq → ok = true →
      enqueueDetection maxq sid s q ok suf t =
        ({ s with frames_processed := s.frames_processed + 1,
                  last_sample_time := some t },
         .task (s.frames_processed + 1)
           (sid ++ ":" ++ toString (s.frames_processed + 1) ++ ":" ++ suf))) := by
  refine ⟨fun h => ?_, fun h hok => ?_, fun h hok => ?_⟩
  · simp [enqueueDetection, h]
  · simp [enqueueDetection, Nat.not_le.mpr h, hok]
  · simp [enqueueDetection, Nat.not_le.mpr h, hok, mkTaskId]

/-- C2 witness: queue below threshold, encode succeeds — a task is
submitted with sequence number 1 and identifier `"cam1:1:abcd1234"`. -/
theorem enqueueDetection_contract_witness :
    enqueueDetection 50 "cam1" StreamStats.init 0 true "abcd1234" 7 =
      ({ StreamStats.init with frames_processed := 1,
                               last_sample_time := some 7 },
       .task 1 ("cam1" ++ ":" ++ toString 1 ++ ":" ++ "abcd1234")) :=
  (enqueueDetection_contract 50 "cam1" StreamStats.init 0 true "abcd1234" 7).2.2
    (by decide) rfl

/-- C3: `start` contract — a probe failure records the error, spawns no
thread, leaves the running flag false and returns failure; a successful
probe sets the running flag, spawns exactly one capture thread and returns
success; a call while already running returns failure and changes
nothing. -/
theorem engineStart_contract (e : EngineState) (probeOk : Bool) (src : String) :
    (e.is_running = true → engineStart e probeOk src = (e, false)) ∧
    (e.is_running = false → probeOk = false →
      (engineStart e probeOk src).2 = false ∧
      (engineStart e probeOk src).1.last_error =
        some ("Failed to open video source: " ++ src) ∧
      (engineStart e probeOk src).1.threads_spawned = e.threads_spawned ∧
      (engineStart e probeOk src).1.is_running = false) ∧
    (e.is_running = false → probeOk = true →
      (engineStart e probeOk src).2 = true ∧
      (engineStart e probeOk src).1.is_running = true ∧
      (engineStart e probeOk src).1.threads_spawned = e.threads_spawned + 1) := by
  refine ⟨fun h => ?_, fun h hp => ?_, fun h hp => ?_⟩
  · simp [engineStart, h]
  · simp [engineStart, h, hp]
  · simp [engineStart, h, hp]

/-- C3 witness: a fresh engine with a successful probe starts, runs and
has spawned exactly one thread. -/
theorem engineStart_contract_witness :
    (engineStart EngineState.init true "video.mp4").2 = true ∧
    (engineStart EngineState.init true "video.mp4").1.is_running = true ∧
    (engineStart EngineState.init true "video.mp4").1.threads_spawned = 0 + 1 :=
  (engineStart_contract EngineState.init true "video.mp4").2.2 rfl rfl

/-- Helper: the probe-failure error message is never the empty string. -/
lemma openFailMsg_ne_empty (src : String) :
    "Failed to open video source: " ++ src ≠ "" := by
  intro h
  have hl := congrArg String.length h
  rw [String.length_append] at hl
  have h1 : 0 < ("Failed to open video source: " : String).length := by decide
  have h2 : ("" : String).length = 0 := rfl
  omega

/-- Helper: unfolding `countId` over a cons cell. -/
lemma countId_cons (p : String × EngineState) (l : Registry) (id : String) :
    Registry.countId (p :: l) id =
      (if p.1 = id then 1 else 0) + Registry.countId l id := by
  by_cases h : p.1 = id <;>
    simp [Registry.countId, List.filter_cons, h, Nat.add_comm]

/-- Helper: an id that `List.lookup` does not find is bound to no registry
entry. -/
lemma countId_eq_zero_of_lookup_none (reg : Registry) (id : String)
    (h : List.lookup id reg = none) : Registry.countId reg id = 0 := by
  induction reg with
  | nil => rfl
  | cons p l ih =>
      rw [List.lookup_cons] at h
      by_cases hk : id = p.1
      · rw [beq_iff_eq.mpr hk] at h
        simp at h
      · have hk' : (id == p.1) = false := beq_false_of_ne hk
        rw [hk'] at h
        simp only [cond_false] at h
        rw [countId_cons]
        have hne : ¬(p.1 = id) := fun hh => hk hh.symm
        simp [hne, ih h]

/-- C7: `start_video_stream` atomicity — an id already in the registry is
rejected with an "already running" error and the registry is unchanged;
when the engine's `start` fails (probe failure), the engine's recorded
error is returned and nothing is registered; when `start` succeeds the
engine is registered and the id is bound to exactly one engine; an id
bound at most once stays bound at most once. -/
theorem startVideoStream_contract (reg : Registry) (id src : String)
    (probeOk : Bool) :
    (∀ e, List.lookup id reg = some e →
      startVideoStream reg id src probeOk =
        (reg, false, some ("Stream " ++ id ++ " is already running"))) ∧
    (List.lookup id reg = none → probeOk = false →
      (startVideoStream reg id src probeOk).1 = reg ∧
      (startVideoStream reg id src probeOk).2.1 = false ∧
      (startVideoStream reg id src probeOk).2.2 =
        (engineStart EngineState.init false src).1.last_error ∧
      (engineStart EngineState.init false src).1.last_error =
        some ("Failed to open video source: " ++ src)) ∧
    (List.lookup id reg = none → probeOk = true →
      (startVideoStream reg id src probeOk).1 =
        (id, (engineStart EngineState.init true src).1) :: reg ∧
      (startVideoStream reg id src probeOk).2 = (true, none) ∧
      Registry.countId (startVideoStream reg id src probeOk).1 id = 1) ∧
    (Registry.countId reg id ≤ 1 →
      Registry.countId (startVideoStream reg id src probeOk).1 id ≤ 1) := by
  refine ⟨fun e he => ?_, fun hn hp => ?_, fun hn hp => ?_, fun hb => ?_⟩
  · simp [startVideoStream, he]
  · subst hp
    have hmsg := openFailMsg_ne_empty src
    simp [startVideoStream, hn, engineStart, EngineState.init, orDefault, hmsg]
  · subst hp
    have h0 := countId_eq_zero_of_lookup_none reg id hn
    simp [startVideoStream, hn, engineStart, EngineState.init]
    simp [Registry.countId, List.filter] at h0 ⊢
    exact h0
  · cases hl : List.lookup id reg with
    | some e => simp [startVideoStream, hl]; exact hb
    | none =>
        have h0 := countId_eq_zero_of_lookup_none reg id hl
        cases probeOk with
        | false =>
            have hmsg := openFailMsg_ne_empty src
            simp [startVideoStream, hl, engineStart, EngineState.init, orDefault, hmsg]
            exact hb
        | true =>
            simp [startVideoStream, hl, engineStart, EngineState.init]
            simp [Registry.countId, List.filter] at h0 ⊢
            exact h0

/-- C7 witness: starting `"cam1"` on an empty registry with a successful
probe registers exactly one engine under `"cam1"` and returns success. -/
theorem startVideoStream_contract_witness :
    (startVideoStream [] "cam1" "video.mp4" true).1 =
      ("cam1", (engineStart EngineState.init true "video.mp4").1) :: [] ∧
    (startVideoStream [] "cam1" "video.mp4" true).2 = (true, none) ∧
    Registry.countId (startVideoStream [] "cam1" "video.mp4" true).1 "cam1" = 1 :=
  (startVideoStream_contract [] "cam1" "video.mp4" true).2.2.1 rfl rfl

/-- C5 (counterexample): the claim says the Task is recorded in the result
store before it is enqueued on the work channel, but `add_task` performs
`task_queue.put(task)` first and `result_store[task_id] = task` second: at
this concrete submission the record effect never precedes the enqueue
effect. -/
theorem addTask_order_counterexample :
    ¬ recordedBeforeEnqueued
        (addTask ⟨[], fun _ => none⟩ "t1" 0 0).2.2 "t1" := by
  intro h
  rcases h with ⟨i, j, hi, hj, hij⟩
  have hops : (addTask ⟨[], fun _ => none⟩ "t1" 0 0).2.2 =
      [QueueOp.enqueue "t1", QueueOp.record "t1"] := rfl
  rw [hops] at hi hj
  have hi' : i = 1 := by
    match i, hi with
    | 0, hi => exact absurd hi (by simp)
    | 1, _ => rfl
    | (n + 2), hi => exact absurd hi (by simp)
  have hj' : j = 0 := by
    match j, hj with
    | 0, _ => rfl
    | 1, hj => exact absurd hj (by simp)
    | (n + 2), hj => exact absurd hj (by simp)
  omega

/-- C5 (amended): `add_task` builds a fresh Pending task, enqueues it on
the work channel first, records it in the result store second (overwriting
any entry already stored under the same id), and returns the id without
waiting for execution. -/
theorem addTask_contract (st : FQState) (id : String) (w : Nat) (t : ℚ) :
    (addTask st id w t).2.1 = id ∧
    (addTask st id w t).2.2 = [QueueOp.enqueue id, QueueOp.record id] ∧
    (addTask st id w t).1.taskQueue = st.taskQueue ++ [QTask.mk0 id w t] ∧
    (addTask st id w t).1.resultStore id = some (QTask.mk0 id w t) ∧
    (QTask.mk0 id w t).status = .pending ∧
    (QTask.mk0 id w t).result = none ∧
    (QTask.mk0 id w t).error = none ∧
    (∀ w' t', (addTask (addTask st id w t).1 id w' t').1.resultStore id =
        some (QTask.mk0 id w' t')) ∧
    (∀ k, k ≠ id → (addTask st id w t).1.resultStore k = st.resultStore k) := by
  refine ⟨rfl, rfl, rfl, by simp [addTask], rfl, rfl, rfl,
    fun w' t' => by simp [addTask], fun k hk => by simp [addTask, hk]⟩

/-- C5 witness: submitting `"t2"` twice leaves the second task in the
store, and an unrelated key is untouched. -/
theorem addTask_contract_witness :
    (addTask (addTask ⟨[], fun _ => none⟩ "t2" 3 0).1 "t2" 4 1).1.resultStore "t2" =
      some (QTask.mk0 "t2" 4 1) ∧
    (addTask ⟨[], fun _ => none⟩ "t2" 3 0).1.resultStore "other" =
      (fun _ => (none : Option QTask)) "other" :=
  ⟨(addTask_contract ⟨[], fun _ => none⟩ "t2" 3 0).2.2.2.2.2.2.2.1 4 1,
   (addTask_contract ⟨[], fun _ => none⟩ "t2" 3 0).2.2.2.2.2.2.2.2 "other"
     (by decide)⟩

/-- C4: task lifecycle — a dequeued Pending task is marked Running with a
start timestamp before the work is invoked; on return it is marked
Completed with the result, on a raise it is marked Failed with the
exception's message, and the completion timestamp is set in both branches;
afterwards result is set iff Completed and error is set iff Failed
(mutually exclusive), and the status rank strictly increases at each
transition (Pending → Running → {Completed, Failed}). -/
theorem workerProcess_lifecycle (task : QTask) (outcome : WorkOutcome)
    (t1 t2 : ℚ) (hst : task.status = .pending)
    (hres : task.result = none) (herr : task.error = none) :
    (markRunning task t1).status = .running ∧
    (markRunning task t1).started_at = some t1 ∧
    (∀ v, outcome = .ok v →
      (workerProcess task outcome t1 t2).status = .completed ∧
      (workerProcess task outcome t1 t2).result = some v) ∧
    (∀ m, outcome = .exc m →
      (workerProcess task outcome t1 t2).status = .failed ∧
      (workerProcess task outcome t1 t2).error = some m) ∧
    (workerProcess task outcome t1 t2).completed_at = some t2 ∧
    ((workerProcess task outcome t1 t2).result.isSome ↔
      (workerProcess task outcome t1 t2).status = .completed) ∧
    ((workerProcess task outcome t1 t2).error.isSome ↔
      (workerProcess task outcome t1 t2).status = .failed) ∧
    ¬((workerProcess task outcome t1 t2).result.isSome ∧
      (workerProcess task outcome t1 t2).error.isSome) ∧
    task.status.rank < (markRunning task t1).status.rank ∧
    (markRunning task t1).status.rank <
      (workerProcess task outcome t1 t2).status.rank := by
  cases outcome with
  | ok v =>
      simp [workerProcess, markRunning, finishTask, TaskStatus.rank,
        hst, hres, herr]
  | exc m =>
      simp [workerProcess, markRunning, finishTask, TaskStatus.rank,
        hst, hres, herr]

/-- C4 witness: a fresh task whose work raises `"boom"` ends Failed with
the message as error, no result, and a completion timestamp. -/
theorem workerProcess_lifecycle_witness :
    (workerProcess (QTask.mk0 "t" 0 0) (.exc "boom") 1 2).status = .failed ∧
    (workerProcess (QTask.mk0 "t" 0 0) (.exc "boom") 1 2).error = some "boom" :=
  (workerProcess_lifecycle (QTask.mk0 "t" 0 0) (.exc "boom") 1 2
    rfl rfl rfl).2.2.2.1 "boom" rfl

/-- C9 (counterexample): the claim says every non-2xx response makes the
work raise, but `resp.raise_for_status()` raises only for 4xx/5xx.  A 304
response is not 2xx, yet the work returns the raw-text payload and
`frames_sent` is incremented instead of `frames_failed`. -/
theorem postFrameToDetection_non2xx_counterexample :
    is2xx 304 = false ∧
    (postFrameToDetection StreamStats.init (.response 304 none "x")).2 =
      .ok (Payload.raw "x") ∧
    (postFrameToDetection StreamStats.init (.response 304 none "x")).1.frames_sent = 1 ∧
    (postFrameToDetection StreamStats.init (.response 304 none "x")).1.frames_failed = 0 := by
  refine ⟨rfl, ?_, ?_, ?_⟩ <;>
    simp [postFrameToDetection, raiseForStatusRaises, StreamStats.init]

/-- C9 (amended): detection sink error handling as the source has it — a
4xx/5xx response makes the work raise (`raise_for_status`); on any other
response the body is parsed as JSON, falling back to a raw-text wrapper
when parsing fails, the payload is returned as the Task's result and
`frames_sent` is incremented; and every raised exception (post failure or
HTTP error) increments `frames_failed` and records its message as
`last_error` before propagating. -/
theorem postFrameToDetection_contract (s : StreamStats) (r : PostResult) :
    (∀ status jb txt, r = .response status jb txt →
      400 ≤ status → status < 600 →
      (postFrameToDetection s r).2 = .error (httpErrorMsg status)) ∧
    (∀ status v txt, r = .response status (some v) txt →
      ¬(400 ≤ status ∧ status < 600) →
      (postFrameToDetection s r).2 = .ok (.json v) ∧
      (postFrameToDetection s r).1.frames_sent = s.frames_sent + 1 ∧
      (postFrameToDetection s r).1.frames_failed = s.frames_failed) ∧
    (∀ status txt, r = .response status none txt →
      ¬(400 ≤ status ∧ status < 600) →
      (postFrameToDetection s r).2 = .ok (.raw txt) ∧
      (postFrameToDetection s r).1.frames_sent = s.frames_sent + 1) ∧
    (∀ m, r = .postError m → (postFrameToDetection s r).2 = .error m) ∧
    (∀ msg, (postFrameToDetection s r).2 = .error msg →
      (postFrameToDetection s r).1.frames_failed = s.frames_failed + 1 ∧
      (postFrameToDetection s r).1.last_error = some msg ∧
      (postFrameToDetection s r).1.frames_sent = s.frames_sent) := by
  refine ⟨?_, ?_, ?_, ?_, ?_⟩
  · rintro status jb txt rfl h4 h6
    have hr : raiseForStatusRaises status = true := by
      simp [raiseForStatusRaises]; omega
    simp [postFrameToDetection, hr]
  · rintro status v txt rfl hno
    have hr : raiseForStatusRaises status = false := by
      simp [raiseForStatusRaises]; omega
    simp [postFrameToDetection, hr]
  · rintro status txt rfl hno
    have hr : raiseForStatusRaises status = false := by
      simp [raiseForStatusRaises]; omega
    simp [postFrameToDetection, hr]
  · rintro m rfl
    simp [postFrameToDetection]
  · intro msg hmsg
    cases r with
    | postError m =>
        simp [postFrameToDetection] at hmsg ⊢
        simp [hmsg]
    | response status jb txt =>
        by_cases hr : raiseForStatusRaises status = true
        · simp [postFrameToDetection, hr] at hmsg ⊢
          simp [hmsg]
        · have hf : raiseForStatusRaises status = false := by
            cases h : raiseForStatusRaises status
            · rfl
            · exact absurd h hr
          exfalso
          cases jb <;> simp [postFrameToDetection, hf] at hmsg

/-- C9 witness: a 500 response makes the work raise, with `frames_failed`
incremented and the message recorded as `last_error`. -/
theorem postFrameToDetection_contract_witness :
    (postFrameToDetection StreamStats.init (.response 500 none "oops")).2 =
      .error (httpErrorMsg 500) ∧
    (postFrameToDetection StreamStats.init (.response 500 none "oops")).1.frames_failed = 1 ∧
    (postFrameToDetection StreamStats.init (.response 500 none "oops")).1.last_error =
      some (httpErrorMsg 500) := by
  have h1 := (postFrameToDetection_contract StreamStats.init
    (.response 500 none "oops")).1 500 none "oops" rfl (by decide) (by decide)
  have h2 := (postFrameToDetection_contract StreamStats.init
    (.response 500 none "oops")).2.2.2.2 (httpErrorMsg 500) h1
  exact ⟨h1, h2.1, h2.2.1⟩

/-- C6: MJPEG buffer step — after appending a chunk, a buffer over 10 MB
is reset to empty with no frame emitted; otherwise, when the first start
marker sits at index `a` and the first end marker at index `b > a`, the
extracted frame is exactly the bytes from `a` through `b + 1` inclusive
(`byte_stream[a:b+2]`) and the new buffer is exactly the bytes from
`b + 2` onward, so the old buffer is the skipped prefix, the frame and the
remainder in order. -/
theorem mjpegStep_extract (buf chunk : List Nat) :
    ((buf ++ chunk).length > maxBufferSize →
      mjpegStep buf chunk = ([], none)) ∧
    (∀ a b, (buf ++ chunk).length ≤ maxBufferSize →
      findMarker 0xff 0xd8 (buf ++ chunk) = some a →
      findMarker 0xff 0xd9 (buf ++ chunk) = some b →
      a < b →
      mjpegStep buf chunk =
        ((buf ++ chunk).drop (b + 2),
         some (((buf ++ chunk).take (b + 2)).drop a)) ∧
      (buf ++ chunk).take a ++ ((buf ++ chunk).take (b + 2)).drop a ++
        (buf ++ chunk).drop (b + 2) = buf ++ chunk) := by
  constructor
  · intro hlen
    simp only [mjpegStep]
    rw [if_pos hlen]
  · intro a b hlen ha hb hab
    have hlen' : ¬((buf ++ chunk).length > maxBufferSize) := by omega
    constructor
    · simp only [mjpegStep]
      rw [if_neg hlen', ha, hb]
      simp [hab]
    · have h2 : ((buf ++ chunk).take (b + 2)).take a = (buf ++ chunk).take a := by
        rw [List.take_take]
        congr 1
        omega
      calc (buf ++ chunk).take a ++ ((buf ++ chunk).take (b + 2)).drop a ++
            (buf ++ chunk).drop (b + 2)
          = (((buf ++ chunk).take (b + 2)).take a ++
              ((buf ++ chunk).take (b + 2)).drop a) ++
            (buf ++ chunk).drop (b + 2) := by rw [h2]
        _ = (buf ++ chunk).take (b + 2) ++ (buf ++ chunk).drop (b + 2) := by
              rw [List.take_append_drop]
        _ = buf ++ chunk := List.take_append_drop _ _

/-- C6 witness: buffer `[1, 255]` plus chunk `[216, 7, 255, 217, 9]` holds
a start marker at index 1 and an end marker at index 4; the step extracts
the frame `[255, 216, 7, 255, 217]` and keeps `[9]`; a marker-less chunk
one byte over the 10 MB cap resets the buffer to empty. -/
theorem mjpegStep_extract_witness :
    mjpegStep [1, 255] [216, 7, 255, 217, 9] =
      (([1, 255] ++ [216, 7, 255, 217, 9]).drop (4 + 2),
       some ((([1, 255] ++ [216, 7, 255, 217, 9]).take (4 + 2)).drop 1)) ∧
    mjpegStep [] (List.replicate (maxBufferSize + 1) 0) = ([], none) :=
  ⟨((mjpegStep_extract [1, 255] [216, 7, 255, 217, 9]).2 1 4
      (by decide) (by decide) (by decide) (by decide)).1,
   (mjpegStep_extract [] (List.replicate (maxBufferSize + 1) 0)).1
      (by simp)⟩

/-- C8: sampling-clock selection — for a local file with a positive
reported stream position the frame is sampled exactly when it is the first
positioned frame or the position has advanced by at least
`frame_interval * 1000` ms since the last video-sampled frame; otherwise
(non-file source or unusable position) exactly when at least
`frame_interval` seconds of wall time have passed since the last
wall-sampled frame; and each sample advances the chosen clock's mark, so
on that clock samples are at least one interval apart. -/
theorem shouldSample_spec (isLocalFile : Bool) (posMsec interval now : ℚ)
    (st : SampleState) :
    ((shouldSample isLocalFile posMsec interval now st).1 = true ↔
      ((isLocalFile = true ∧ 0 < posMsec ∧
        (st.last_sample_msec = none ∨
         (∃ m, st.last_sample_msec = some m ∧
           interval * 1000 ≤ posMsec - m))) ∨
       ((isLocalFile = false ∨ posMsec ≤ 0) ∧
        interval ≤ now - st.last_sample_wall))) ∧
    (isLocalFile = true → 0 < posMsec →
      (shouldSample isLocalFile posMsec interval now st).1 = true →
      (∀ m, st.last_sample_msec = some m → interval * 1000 ≤ posMsec - m) ∧
      (shouldSample isLocalFile posMsec interval now st).2.last_sample_msec =
        some posMsec) ∧
    ((isLocalFile = false ∨ posMsec ≤ 0) →
      (shouldSample isLocalFile posMsec interval now st).1 = true →
      interval ≤ now - st.last_sample_wall ∧
      (shouldSample isLocalFile posMsec interval now st).2.last_sample_wall =
        now) := by
  cases isLocalFile with
  | false =>
      by_cases hw : interval ≤ now - st.last_sample_wall <;>
        simp [shouldSample, hw]
  | true =>
      by_cases hp : 0 < posMsec
      · cases hm : st.last_sample_msec with
        | none => simp [shouldSample, hp, hm, not_le.mpr hp]
        | some m =>
            by_cases hg : interval * 1000 ≤ posMsec - m <;>
              simp [shouldSample, hp, hm, hg, not_le.mpr hp]
      · by_cases hw : interval ≤ now - st.last_sample_wall <;>
          simp [shouldSample, hp, hw, le_of_not_lt hp]

/-- C8 witness: a local file at position 5000 ms, last sampled at 1000 ms
with a 2-second interval, is sampled and the video clock advances to
5000 ms. -/
theorem shouldSample_spec_witness :
    (shouldSample true 5000 2 0 ⟨0, some 1000⟩).1 = true ∧
    (shouldSample true 5000 2 0 ⟨0, some 1000⟩).2.last_sample_msec =
      some 5000 := by
  have h1 : (shouldSample true 5000 2 0 ⟨0, some 1000⟩).1 = true :=
    (shouldSample_spec true 5000 2 0 ⟨0, some 1000⟩).1.mpr
      (Or.inl ⟨rfl, by norm_num, Or.inr ⟨1000, rfl, by norm_num⟩⟩)
  exact ⟨h1,
    ((shouldSample_spec true 5000 2 0 ⟨0, some 1000⟩).2.1 rfl
      (by norm_num) h1).2⟩

/-- Helper: joining a non-empty relative part never yields the empty
string. -/
lemma pathJoin_ne_empty (root v : String) (hv : v ≠ "") :
    pathJoin root v ≠ "" := by
  unfold pathJoin
  split_ifs with h1 h2
  · exact absurd h1 hv
  · exact hv
  · intro h
    have hl := congrArg String.length h
    rw [String.length_append, String.length_append] at hl
    have hs : ("/" : String).length = 1 := rfl
    have he : ("" : String).length = 0 := rfl
    omega

/-- C10: source-locator resolution — the input is stripped of surrounding
whitespace; a string whose parsed scheme is http/https/rtsp/rtmp is
returned unchanged; an existing absolute path is returned as-is; a path
existing under the project root is returned as that absolute path; any
other input falls back to the stripped string; and the result is never
empty when the stripped input is non-empty. -/
theorem resolveVideoSource_spec (fs : String → Bool) (root src : String) :
    (isProbablyUrl (pyStrip src) = true →
      resolveVideoSource fs root src = pyStrip src) ∧
    (isProbablyUrl (pyStrip src) = false →
      isAbsolutePath (pyStrip src) = true → fs (pyStrip src) = true →
      resolveVideoSource fs root src = pyStrip src) ∧
    (isProbablyUrl (pyStrip src) = false →
      (isAbsolutePath (pyStrip src) && fs (pyStrip src)) = false →
      fs (pathJoin root (pyStrip src)) = true →
      resolveVideoSource fs root src = pathJoin root (pyStrip src)) ∧
    (isProbablyUrl (pyStrip src) = false →
      (isAbsolutePath (pyStrip src) && fs (pyStrip src)) = false →
      fs (pathJoin root (pyStrip src)) = false →
      resolveVideoSource fs root src = pyStrip src) ∧
    (pyStrip src ≠ "" → resolveVideoSource fs root src ≠ "") := by
  refine ⟨fun hu => ?_, fun hu habs hfs => ?_, fun hu hnabs hjoin => ?_,
    fun hu hnabs hjoin => ?_, fun hne => ?_⟩
  · simp [resolveVideoSource, hu]
  · simp [resolveVideoSource, hu, habs, hfs]
  · simp [resolveVideoSource, hu, hnabs, hjoin]
  · simp [resolveVideoSource, hu, hnabs, hjoin]
  · simp only [resolveVideoSource]
    split_ifs with h1 h2 h3
    · exact hne
    · exact hne
    · exact pathJoin_ne_empty root (pyStrip src) hne
    · exact hne

/-- C10 witness: `" sample.mp4 "` is stripped, is not a URL or absolute
path, exists under the project root, and resolves to
`/root/proj/sample.mp4`. -/
theorem resolveVideoSource_spec_witness :
    resolveVideoSource (fun s => s == "/root/proj/sample.mp4") "/root/proj"
        " sample.mp4 " =
      pathJoin "/root/proj" (pyStrip " sample.mp4 ") :=
  (resolveVideoSource_spec (fun s => s == "/root/proj/sample.mp4")
    "/root/proj" " sample.mp4 ").2.2.1 (by decide) (by decide) (by decide)

/-- Helper: a Boolean that is not true is false. -/
lemma eq_false_of_not_true {b : Bool} (h : ¬b = true) : b = false := by
  cases b
  · rfl
  · exact absurd rfl h

/-- Helper: filtered length over a cons cell. -/
lemma filterCount_cons (p : DispatchEvent → Bool) (e : DispatchEvent)
    (l : List DispatchEvent) :
    ((e :: l).filter p).length =
      (if p e = true then 1 else 0) + (l.filter p).length := by
  by_cases h : p e = true <;> simp [List.filter_cons, h, Nat.add_comm]

/-- Helper: one step changes `frames_processed` exactly on an enqueue. -/
lemma stepStats_frames_processed (maxq : Nat) (sid : String)
    (s : StreamStats) (e : DispatchEvent) :
    (stepStats maxq sid s e).frames_processed =
      s.frames_processed +
        (if DispatchEvent.isEnqueue maxq e = true then 1 else 0) := by
  cases e with
  | sampled q ok suf t =>
      by_cases hq : maxq ≤ q
      · have hlt : ¬(q < maxq) := by omega
        simp [stepStats, enqueueDetection, DispatchEvent.isEnqueue, hq, hlt]
      · have hlt : q < maxq := by omega
        cases ok <;>
          simp [stepStats, enqueueDetection, DispatchEvent.isEnqueue, hq, hlt]
  | resolved r =>
      cases r with
      | postError m =>
          simp [stepStats, postFrameToDetection, DispatchEvent.isEnqueue]
      | response status jb txt =>
          by_cases hr : raiseForStatusRaises status = true
          · simp [stepStats, postFrameToDetection, DispatchEvent.isEnqueue, hr]
          · simp [stepStats, postFrameToDetection, DispatchEvent.isEnqueue,
              eq_false_of_not_true hr]

/-- Helper: one step changes `frames_sent` exactly on a successful
resolution. -/
lemma stepStats_frames_sent (maxq : Nat) (sid : String)
    (s : StreamStats) (e : DispatchEvent) :
    (stepStats maxq sid s e).frames_sent =
      s.frames_sent +
        (if DispatchEvent.isOkResolve e = true then 1 else 0) := by
  cases e with
  | sampled q ok suf t =>
      by_cases hq : maxq ≤ q
      · simp [stepStats, enqueueDetection, DispatchEvent.isOkResolve, hq]
      · cases ok <;>
          simp [stepStats, enqueueDetection, DispatchEvent.isOkResolve, hq]
  | resolved r =>
      cases r with
      | postError m =>
          simp [stepStats, postFrameToDetection, DispatchEvent.isOkResolve]
      | response status jb txt =>
          by_cases hr : raiseForStatusRaises status = true
          · simp [stepStats, postFrameToDetection, DispatchEvent.isOkResolve, hr]
          · simp [stepStats, postFrameToDetection, DispatchEvent.isOkResolve,
              eq_false_of_not_true hr]

/-- Helper: one step changes `frames_failed` exactly on an encode failure
or a failed resolution. -/
lemma stepStats_frames_failed (maxq : Nat) (sid : String)
    (s : StreamStats) (e : DispatchEvent) :
    (stepStats maxq sid s e).frames_failed =
      s.frames_failed +
        (if DispatchEvent.isEncodeFail maxq e = true then 1 else 0) +
        (if DispatchEvent.isFailResolve e = true then 1 else 0) := by
  cases e with
  | sampled q ok suf t =>
      by_cases hq : maxq ≤ q
      · have hlt : ¬(q < maxq) := by omega
        simp [stepStats, enqueueDetection, DispatchEvent.isEncodeFail,
          DispatchEvent.isFailResolve, hq, hlt]
      · have hlt : q < maxq := by omega
        cases ok <;>
          simp [stepStats, enqueueDetection, DispatchEvent.isEncodeFail,
            DispatchEvent.isFailResolve, hq, hlt]
  | resolved r =>
      cases r with
      | postError m =>
          simp [stepStats, postFrameToDetection, DispatchEvent.isEncodeFail,
            DispatchEvent.isFailResolve]
      | response status jb txt =>
          by_cases hr : raiseForStatusRaises status = true
          · simp [stepStats, postFrameToDetection, DispatchEvent.isEncodeFail,
              DispatchEvent.isFailResolve, hr]
          · simp [stepStats, postFrameToDetection, DispatchEvent.isEncodeFail,
              DispatchEvent.isFailResolve, eq_false_of_not_true hr]

/-- Helper: one step changes `frames_dropped` exactly on a backpressure
drop. -/
lemma stepStats_frames_dropped (maxq : Nat) (sid : String)
    (s : StreamStats) (e : DispatchEvent) :
    (stepStats maxq sid s e).frames_dropped =
      s.frames_dropped +
        (if DispatchEvent.isDrop maxq e = true then 1 else 0) := by
  cases e with
  | sampled q ok suf t =>
      by_cases hq : maxq ≤ q
      · simp [stepStats, enqueueDetection, DispatchEvent.isDrop, hq]
      · cases ok <;>
          simp [stepStats, enqueueDetection, DispatchEvent.isDrop, hq]
  | resolved r =>
      cases r with
      | postError m =>
          simp [stepStats, postFrameToDetection, DispatchEvent.isDrop]
      | response status jb txt =>
          by_cases hr : raiseForStatusRaises status = true
          · simp [stepStats, postFrameToDetection, DispatchEvent.isDrop, hr]
          · simp [stepStats, postFrameToDetection, DispatchEvent.isDrop,
              eq_false_of_not_true hr]

/-- Helper: `frames_processed` over a whole trace counts the enqueues. -/
lemma foldl_frames_processed (maxq : Nat) (sid : String)
    (l : List DispatchEvent) : ∀ s : StreamStats,
    (List.foldl (stepStats maxq sid) s l).frames_processed =
      s.frames_processed + enqueueCount maxq l := by
  induction l with
  | nil => intro s; simp [enqueueCount]
  | cons e l ih =>
      intro s
      rw [List.foldl_cons, ih, stepStats_frames_processed]
      rw [show enqueueCount maxq (e :: l) =
        (if DispatchEvent.isEnqueue maxq e = true then 1 else 0) +
          enqueueCount maxq l from filterCount_cons _ e l]
      omega

/-- Helper: `frames_sent` over a whole trace counts the successful
resolutions. -/
lemma foldl_frames_sent (maxq : Nat) (sid : String)
    (l : List DispatchEvent) : ∀ s : StreamStats,
    (List.foldl (stepStats maxq sid) s l).frames_sent =
      s.frames_sent + okResolveCount l := by
  induction l with
  | nil => intro s; simp [okResolveCount]
  | cons e l ih =>
      intro s
      rw [List.foldl_cons, ih, stepStats_frames_sent]
      rw [show okResolveCount (e :: l) =
        (if DispatchEvent.isOkResolve e = true then 1 else 0) +
          okResolveCount l from filterCount_cons _ e l]
      omega

/-- Helper: `frames_failed` over a whole trace counts encode failures plus
failed resolutions. -/
lemma foldl_frames_failed (maxq : Nat) (sid : String)
    (l : List DispatchEvent) : ∀ s : StreamStats,
    (List.foldl (stepStats maxq sid) s l).frames_failed =
      s.frames_failed + encodeFailCount maxq l + failResolveCount l := by
  induction l with
  | nil => intro s; simp [encodeFailCount, failResolveCount]
  | cons e l ih =>
      intro s
      rw [List.foldl_cons, ih, stepStats_frames_failed]
      rw [show encodeFailCount maxq (e :: l) =
        (if DispatchEvent.isEncodeFail maxq e = true then 1 else 0) +
          encodeFailCount maxq l from filterCount_cons _ e l]
      rw [show failResolveCount (e :: l) =
        (if DispatchEvent.isFailResolve e = true then 1 else 0) +
          failResolveCount l from filterCount_cons _ e l]
      omega

/-- Helper: `frames_dropped` over a whole trace counts the backpressure
drops. -/
lemma foldl_frames_dropped (maxq : Nat) (sid : String)
    (l : List DispatchEvent) : ∀ s : StreamStats,
    (List.foldl (stepStats maxq sid) s l).frames_dropped =
      s.frames_dropped + dropCount maxq l := by
  induction l with
  | nil => intro s; simp [dropCount]
  | cons e l ih =>
      intro s
      rw [List.foldl_cons, ih, stepStats_frames_dropped]
      rw [show dropCount maxq (e :: l) =
        (if DispatchEvent.isDrop maxq e = true then 1 else 0) +
          dropCount maxq l from filterCount_cons _ e l]
      omega

/-- Helper: resolutions split into successful and failed ones. -/
lemma resolveCount_split (l : List DispatchEvent) :
    resolveCount l = okResolveCount l + failResolveCount l := by
  induction l with
  | nil => rfl
  | cons e l ih =>
      have hexcl : ¬(DispatchEvent.isFailResolve e = true ∧
          DispatchEvent.isOkResolve e = true) := by
        cases e with
        | sampled q ok suf t => simp [DispatchEvent.isFailResolve]
        | resolved r =>
            cases r with
            | postError m => simp [DispatchEvent.isOkResolve]
            | response status jb txt =>
                cases hr : raiseForStatusRaises status <;>
                  simp [DispatchEvent.isFailResolve,
                    DispatchEvent.isOkResolve, hr]
      simp only [resolveCount, okResolveCount, failResolveCount] at ih ⊢
      rw [filterCount_cons, filterCount_cons, filterCount_cons]
      cases hf : DispatchEvent.isFailResolve e <;>
        cases ho : DispatchEvent.isOkResolve e
      · simp only [hf, ho, Bool.or_self, if_neg]
        simp
        omega
      · simp [hf, ho]
        omega
      · simp [hf, ho]
        omega
      · exact absurd ⟨hf, ho⟩ hexcl

/-- C1 (counterexample): a single backpressure drop with no task in flight
leaves `frames_processed = 0` but `frames_dropped = 1`, so the claimed
identity `frames_processed = frames_sent + frames_failed + frames_dropped`
fails — drops are not counted under `frames_processed`. -/
theorem streamStats_invariant_counterexample :
    noFramesInFlight 50 [DispatchEvent.sampled 50 true "ab" 0] ∧
    (runTrace 50 "s" [DispatchEvent.sampled 50 true "ab" 0]).frames_dropped = 1 ∧
    (runTrace 50 "s" [DispatchEvent.sampled 50 true "ab" 0]).frames_processed ≠
      (runTrace 50 "s" [DispatchEvent.sampled 50 true "ab" 0]).frames_sent +
      (runTrace 50 "s" [DispatchEvent.sampled 50 true "ab" 0]).frames_failed +
      (runTrace 50 "s" [DispatchEvent.sampled 50 true "ab" 0]).frames_dropped := by
  refine ⟨by decide, by decide, by decide⟩

/-- C1 (amended): StreamStats accounting as the source has it — once no
frames are in flight, `frames_processed` equals the number of submitted
dispatch tasks and `frames_processed + (encode failures) = frames_sent +
frames_failed`, while `frames_dropped` counts exactly the backpressure
drops; drops and encode failures are never counted under
`frames_processed`, so the spec's identity holds only on traces without
them. -/
theorem streamStats_accounting (maxq : Nat) (sid : String)
    (l : List DispatchEvent) (h : noFramesInFlight maxq l) :
    (runTrace maxq sid l).frames_processed + encodeFailCount maxq l =
      (runTrace maxq sid l).frames_sent + (runTrace maxq sid l).frames_failed ∧
    (runTrace maxq sid l).frames_dropped = dropCount maxq l ∧
    (runTrace maxq sid l).frames_processed = enqueueCount maxq l := by
  have hp := foldl_frames_processed maxq sid l StreamStats.init
  have hs := foldl_frames_sent maxq sid l StreamStats.init
  have hf := foldl_frames_failed maxq sid l StreamStats.init
  have hd := foldl_frames_dropped maxq sid l StreamStats.init
  have hsplit := resolveCount_split l
  have e1 : StreamStats.init.frames_processed = 0 := rfl
  have e2 : StreamStats.init.frames_sent = 0 := rfl
  have e3 : StreamStats.init.frames_failed = 0 := rfl
  have e4 : StreamStats.init.frames_dropped = 0 := rfl
  unfold noFramesInFlight at h
  unfold runTrace
  refine ⟨?_, ?_, ?_⟩ <;> omega

/-- C1 witness: one frame sampled below the backpressure threshold and
successfully dispatched — no frames in flight, and the amended accounting
identity holds with `frames_processed = 1`. -/
theorem streamStats_accounting_witness :
    (runTrace 50 "s" [DispatchEvent.sampled 0 true "ab" 0,
        DispatchEvent.resolved (.response 200 (some 1) "x")]).frames_processed +
      encodeFailCount 50 [DispatchEvent.sampled 0 true "ab" 0,
        DispatchEvent.resolved (.response 200 (some 1) "x")] =
    (runTrace 50 "s" [DispatchEvent.sampled 0 true "ab" 0,
        DispatchEvent.resolved (.response 200 (some 1) "x")]).frames_sent +
    (runTrace 50 "s" [DispatchEvent.sampled 0 true "ab" 0,
        DispatchEvent.resolved (.response 200 (some 1) "x")]).frames_failed :=
  (streamStats_accounting 50 "s" [DispatchEvent.sampled 0 true "ab" 0,
    DispatchEvent.resolved (.response 200 (some 1) "x")] (by decide)).1

end PotholeBackend
